import Mathlib

/-!
# Verification of the currency-converter agent

A shallow embedding, in Lean 4, of the core of the
`SasiVeeramachaneni/currency-converter` repository: the rate table, the three
conversion functions, the tool registry and the tool-calling loop of
`src/main.py` (the copies in `src/a2a_server.py` are textually identical).

Modelling conventions:
* Python strings are lists of characters (`Str`); `str.upper` is
  `List.map Char.toUpper` (Lean's `Char.toUpper` is exactly Python's
  uppercase map on the ASCII range, the only range currency codes use).
* Python floats are embedded as exact rationals (`ℚ`); `round(x, n)` is
  round-half-to-even at `n` decimal digits (`pyRound`), Python's documented
  rounding mode.
* A Python function that can raise returns `Except Str α`; `.error` is an
  uncaught exception carrying its message.  The three conversion functions
  are total (`FuncResult`), matching the source, where every failure path
  returns an error dict instead of raising.
* `json.loads` is library code outside the repository, so a tool call
  carries the *outcome* of deserializing its JSON arguments text: an
  `Except Str ArgDict` environment input.
-/

/-- A Python string: a sequence of characters. -/
abbrev Str := List Char

/-- Coerce a Lean string literal into the `Str` representation. -/
def str (s : String) : Str := s.data

/-- Python `s.upper()` (ASCII range): embedding of the normalization on
lines 52-53 and 71-72 of `src/main.py`. -/
def upper (s : Str) : Str := s.map Char.toUpper

/-- `needle` starts `hay` (used to state "the message contains the code"). -/
def leadsWith : Str → Str → Bool
  | [], _ => true
  | _ :: _, [] => false
  | a :: as, b :: bs => a == b && leadsWith as bs

/-- Python `needle in hay` on strings: `needle` occurs contiguously in
`hay`. -/
def containsSub : Str → Str → Bool
  | [], needle => needle.isEmpty
  | c :: rest, needle => leadsWith needle (c :: rest) || containsSub rest needle

/-- Round a rational to the nearest integer, ties to even — the behaviour of
Python's builtin `round` on a value midway between two integers. -/
def halfEven (q : ℚ) : ℤ :=
  if q - ⌊q⌋ < 1/2 then ⌊q⌋
  else if 1/2 < q - ⌊q⌋ then ⌊q⌋ + 1
  else if ⌊q⌋ % 2 = 0 then ⌊q⌋ else ⌊q⌋ + 1

/-- Python `round(x, nd)`: round to `nd` decimal digits, ties to even. -/
def pyRound (x : ℚ) (nd : ℕ) : ℚ := (halfEven (x * 10 ^ nd) : ℚ) / 10 ^ nd

/-- The fixed rate table of `src/main.py` lines 26-47 (`src/a2a_server.py`
lines 44-65 is the same table): units of each currency per one USD. -/
def EXCHANGE_RATES : List (Str × ℚ) :=
  [ (str "USD", 1.0),
    (str "EUR", 0.92),
    (str "GBP", 0.79),
    (str "JPY", 149.50),
    (str "CAD", 1.36),
    (str "AUD", 1.53),
    (str "CHF", 0.88),
    (str "CNY", 7.14),
    (str "INR", 83.12),
    (str "MXN", 17.15),
    (str "BRL", 4.97),
    (str "KRW", 1298.50),
    (str "SGD", 1.34),
    (str "HKD", 7.82),
    (str "SEK", 10.42),
    (str "NOK", 10.68),
    (str "NZD", 1.63),
    (str "ZAR", 18.65),
    (str "RUB", 89.50),
    (str "AED", 3.67) ]

/-- Python dict lookup on an association list (`d[k]` preceded by `k in d`). -/
def lookupTable {α : Type} : List (Str × α) → Str → Option α
  | [], _ => none
  | (k, v) :: rest, c => if c = k then some v else lookupTable rest c

/-- The result dict of a conversion function: the three success shapes of
`get_exchange_rate`, `convert_currency` and `list_supported_currencies`,
or the error dict `{"error": msg}`. -/
inductive FuncResult where
  | rateOk (from_currency to_currency : Str) (exchange_rate : ℚ)
  | convertOk (original_amount : ℚ) (from_currency to_currency : Str)
      (converted_amount exchange_rate : ℚ)
  | listOk (supported_currencies : List Str) (base_currency : Str)
      (total_currencies : ℕ)
  | error (msg : Str)
  deriving DecidableEq

/-- The message of the unsupported-currency error dict:
Python `f"Currency '{c}' not supported"`. -/
def currencyErrorMsg (c : Str) : Str :=
  str "Currency '" ++ c ++ str "' not supported"

/-- `get_exchange_rate` of `src/main.py` lines 50-66. -/
def get_exchange_rate (from_currency to_currency : Str) : FuncResult :=
  let f := upper from_currency
  let t := upper to_currency
  match lookupTable EXCHANGE_RATES f with
  | none => .error (currencyErrorMsg f)
  | some rf =>
    match lookupTable EXCHANGE_RATES t with
    | none => .error (currencyErrorMsg t)
    | some rt => .rateOk f t (pyRound (rt / rf) 6)

/-- `convert_currency` of `src/main.py` lines 69-89. -/
def convert_currency (amount : ℚ) (from_currency to_currency : Str) : FuncResult :=
  let f := upper from_currency
  let t := upper to_currency
  match lookupTable EXCHANGE_RATES f with
  | none => .error (currencyErrorMsg f)
  | some rf =>
    match lookupTable EXCHANGE_RATES t with
    | none => .error (currencyErrorMsg t)
    | some rt =>
      .convertOk amount f t (pyRound (amount * (rt / rf)) 2) (pyRound (rt / rf) 6)

/-- `list_supported_currencies` of `src/main.py` lines 92-98. -/
def list_supported_currencies : FuncResult :=
  .listOk (EXCHANGE_RATES.map Prod.fst) (str "USD") EXCHANGE_RATES.length

/-- A JSON-decoded tool argument value (the agent's tools only take numbers
and strings). -/
inductive PyVal where
  | num (q : ℚ)
  | strv (s : Str)
  deriving DecidableEq

/-- A keyword-argument dict as produced by `json.loads` on a tool call's
arguments text. -/
abbrev ArgDict := List (Str × PyVal)

/-- One entry of `assistant_message.tool_calls`.  The `arguments` field holds
the outcome of `json.loads(tool_call.function.arguments)` (line 205 of
`src/main.py`): `json` is library code, so the embedding takes the parse
outcome as given; `.error` is the raised `JSONDecodeError`. -/
structure ToolCall where
  id : Str
  name : Str
  arguments : Except Str ArgDict

/-- The fields of a model reply inspected by the loop: optional text content
and the list of requested tool calls. -/
structure AssistantMessage where
  content : Option Str
  tool_calls : List ToolCall

/-- A conversation message.  A tool message carries its result dict (the
source serializes it with `json.dumps`; the embedding keeps the value). -/
inductive Message where
  | system (content : Str)
  | user (content : Str)
  | assistant (am : AssistantMessage)
  | tool (tool_call_id : Str) (result : FuncResult)

/-- Python `**kwargs` invocation of `convert_currency`: binding succeeds only
for exactly the declared keywords with usable values; any other call raises
(`TypeError`/`AttributeError`), carried as `.error`. -/
def call_convert_currency (args : ArgDict) : Except Str FuncResult :=
  match lookupTable args (str "amount"), lookupTable args (str "from_currency"),
      lookupTable args (str "to_currency") with
  | some (.num a), some (.strv f), some (.strv t) =>
    if args.length = 3 then .ok (convert_currency a f t)
    else .error (str "TypeError: unexpected keyword argument")
  | _, _, _ => .error (str "TypeError: bad arguments for convert_currency")

/-- Python `**kwargs` invocation of `get_exchange_rate`. -/
def call_get_exchange_rate (args : ArgDict) : Except Str FuncResult :=
  match lookupTable args (str "from_currency"), lookupTable args (str "to_currency") with
  | some (.strv f), some (.strv t) =>
    if args.length = 2 then .ok (get_exchange_rate f t)
    else .error (str "TypeError: unexpected keyword argument")
  | _, _ => .error (str "TypeError: bad arguments for get_exchange_rate")

/-- Python `**kwargs` invocation of `list_supported_currencies` (no
parameters: any keyword raises). -/
def call_list_supported_currencies (args : ArgDict) : Except Str FuncResult :=
  match args with
  | [] => .ok list_supported_currencies
  | _ => .error (str "TypeError: unexpected keyword argument")

/-- The name-to-callable registry of `src/main.py` lines 164-168. -/
def AVAILABLE_FUNCTIONS : List (Str × (ArgDict → Except Str FuncResult)) :=
  [ (str "convert_currency", call_convert_currency),
    (str "get_exchange_rate", call_get_exchange_rate),
    (str "list_supported_currencies", call_list_supported_currencies) ]

/-- Lines 208-211 of `src/main.py`: look the name up in
`AVAILABLE_FUNCTIONS` and invoke it, or build the unknown-function error
dict. -/
def dispatch_tool_call (name : Str) (args : ArgDict) : Except Str FuncResult :=
  match lookupTable AVAILABLE_FUNCTIONS name with
  | some f => f args
  | none => .ok (.error (str "Unknown function: " ++ name))

/-- Lines 204-217 of `src/main.py` for one tool call: deserialize the
arguments, dispatch, and wrap the result dict as a tool message.  There is
no `try`/`except` in the source, so a raise at any step propagates. -/
def handle_tool_call (tc : ToolCall) : Except Str Message := do
  let args ← tc.arguments
  let r ← dispatch_tool_call tc.name args
  pure (.tool tc.id r)

/-- The `for tool_call in assistant_message.tool_calls` loop of lines
203-217: in-order handling, the first raise aborting the whole loop. -/
def handle_tool_calls (tcs : List ToolCall) : Except Str (List Message) :=
  tcs.mapM handle_tool_call

/-- The system prompt of `src/main.py` lines 170-176. -/
def SYSTEM_PROMPT : Str :=
  str "You are a helpful currency conversion assistant. You can:\n1. Convert amounts between different currencies\n2. Provide current exchange rates between currencies\n3. List all supported currencies\n\nAlways provide clear and concise responses. When converting currencies, show both the converted amount and the exchange rate used.\nIf a user asks about a currency that isn't supported, politely let them know and suggest listing the supported currencies."

/-- The model call of lines 190-195: an oracle from the message list to the
reply; `.error` is a raised API exception, which `run_agent` never catches. -/
abbrev Model := List Message → Except Str AssistantMessage

/-- The `while assistant_message.tool_calls:` loop of lines 200-230.  The
source has no iteration bound, so the embedding carries fuel, consumed only
when a round of tool calls actually runs; the returned number counts the
model calls the loop itself makes. -/
def run_agent_loop (model : Model) :
    ℕ → List Message → AssistantMessage → Except Str (Option Str × ℕ)
  | _, _, { content := c, tool_calls := [] } => .ok (c, 0)
  | 0, _, _ => .error (str "out of fuel")
  | fuel + 1, messages, am => do
    let tool_results ← handle_tool_calls am.tool_calls
    let messages' := messages ++ [Message.assistant am] ++ tool_results
    let am' ← model messages'
    let (r, n) ← run_agent_loop model fuel messages' am'
    pure (r, n + 1)

/-- The seeded message list of lines 185-187. -/
def initial_messages (user_message : Str) (conversation_history : List Message) :
    List Message :=
  Message.system SYSTEM_PROMPT :: conversation_history ++ [Message.user user_message]

/-- `run_agent` of `src/main.py` lines 179-232, instrumented with the total
number of model calls made.  Returns `assistant_message.content` of the
first reply that carries no tool calls; `.error` is an uncaught exception
propagating to the caller. -/
def run_agent (model : Model) (fuel : ℕ) (user_message : Str)
    (conversation_history : List Message) : Except Str (Option Str × ℕ) := do
  let messages := initial_messages user_message conversation_history
  let am ← model messages
  let (r, n) ← run_agent_loop model fuel messages am
  pure (r, n + 1)

/-- A model stub whose every reply requests one `convert_currency` call
whose JSON arguments text does not deserialize. -/
def badJSONModel : Model := fun _ =>
  .ok { content := none,
        tool_calls := [{ id := str "call_1", name := str "convert_currency",
                         arguments := .error (str "Expecting value: line 1 column 1 (char 0)") }] }

/-- A model stub that immediately answers in text, with no tool calls. -/
def textOnlyModel : Model := fun _ =>
  .ok { content := some (str "All done."), tool_calls := [] }

/-!  ## Helper lemmas  -/

theorem toUpper_toNat (c : Char) (h1 : 97 ≤ c.toNat) (h2 : c.toNat ≤ 122) :
    (Char.ofNat (c.toNat - 32)).toNat = c.toNat - 32 := by
  interval_cases h : c.toNat <;> decide

theorem toUpper_idem (c : Char) : c.toUpper.toUpper = c.toUpper := by
  show (let n := c.toUpper.toNat;
    if n ≥ 97 ∧ n ≤ 122 then Char.ofNat (n - 32) else c.toUpper) = c.toUpper
  by_cases h : 97 ≤ c.toNat ∧ c.toNat ≤ 122
  · have hup : c.toUpper = Char.ofNat (c.toNat - 32) := by
      show (let n := c.toNat; if n ≥ 97 ∧ n ≤ 122 then Char.ofNat (n - 32) else c) = _
      simp only [ge_iff_le]
      rw [if_pos h]
    have hv := toUpper_toNat c h.1 h.2
    rw [hup]
    simp only [ge_iff_le]
    rw [if_neg (by omega)]
  · have hup : c.toUpper = c := by
      show (let n := c.toNat; if n ≥ 97 ∧ n ≤ 122 then Char.ofNat (n - 32) else c) = c
      simp only [ge_iff_le]
      rw [if_neg h]
    rw [hup]
    show (let n := c.toNat; if n ≥ 97 ∧ n ≤ 122 then Char.ofNat (n - 32) else c) = c
    simp only [ge_iff_le]
    rw [if_neg h]

theorem upper_idem (s : Str) : upper (upper s) = upper s := by
  induction s with
  | nil => rfl
  | cons c cs ih =>
    simp only [upper, List.map_cons, List.map_map] at ih ⊢
    exact List.cons_eq_cons.mpr ⟨toUpper_idem c, ih⟩

theorem lookupTable_mem {α : Type} (l : List (Str × α)) (c : Str) (v : α)
    (h : lookupTable l c = some v) : (c, v) ∈ l := by
  induction l with
  | nil => exact absurd h (by simp [lookupTable])
  | cons p rest ih =>
    obtain ⟨k, w⟩ := p
    by_cases hc : c = k
    · subst hc
      rw [lookupTable, if_pos rfl] at h
      injection h with h2
      subst h2
      exact List.mem_cons_self _ _
    · rw [lookupTable, if_neg hc] at h
      exact List.mem_cons_of_mem _ (ih h)

theorem upper_key_fixed : ∀ c ∈ EXCHANGE_RATES.map Prod.fst, upper c = c := by
  decide

theorem upper_of_supported (c : Str) (v : ℚ)
    (h : lookupTable EXCHANGE_RATES c = some v) : upper c = c :=
  upper_key_fixed c (List.mem_map_of_mem Prod.fst (lookupTable_mem _ _ _ h))

theorem rates_pos : ∀ p ∈ EXCHANGE_RATES, (0 : ℚ) < p.2 := by
  intro p hp
  fin_cases hp <;> norm_num

theorem halfEven_of_floor_of_lt (q : ℚ) (n : ℤ) (hf : ⌊q⌋ = n)
    (h : q - (n : ℚ) < 1/2) : halfEven q = n := by
  rw [halfEven, hf, if_pos h]

theorem pyRound_eq (x : ℚ) (nd : ℕ) (n : ℤ) (hf : halfEven (x * 10 ^ nd) = n) :
    pyRound x nd = (n : ℚ) / 10 ^ nd := by
  rw [pyRound, hf]

theorem pyRound_one_six : pyRound 1 6 = 1 := by
  rw [pyRound_eq 1 6 1000000
    (halfEven_of_floor_of_lt _ _ (by norm_num) (by norm_num))]
  norm_num

theorem leadsWith_self_append (p t : Str) : leadsWith p (p ++ t) = true := by
  induction p with
  | nil => rfl
  | cons c cs ih => simp [leadsWith, ih]

theorem containsSub_self_append (mid post : Str) :
    containsSub (mid ++ post) mid = true := by
  cases mid with
  | nil =>
    cases post with
    | nil => rfl
    | cons d ds => rfl
  | cons c cs =>
    show (leadsWith (c :: cs) ((c :: cs) ++ post) ||
      containsSub (cs ++ post) (c :: cs)) = true
    rw [leadsWith_self_append]
    rfl

theorem containsSub_append (pre mid post : Str) :
    containsSub (pre ++ mid ++ post) mid = true := by
  induction pre with
  | nil => exact containsSub_self_append mid post
  | cons c cs ih =>
    show (leadsWith mid ((c :: cs) ++ mid ++ post) ||
      containsSub (cs ++ mid ++ post) mid) = true
    rw [ih, Bool.or_true]

theorem containsSub_currencyErrorMsg (c : Str) :
    containsSub (currencyErrorMsg c) c = true :=
  containsSub_append (str "Currency '") c (str "' not supported")

/-- Success-path form of `get_exchange_rate` for table keys. -/
theorem get_exchange_rate_ok (A B : Str) (ra rb : ℚ)
    (ha : lookupTable EXCHANGE_RATES A = some ra)
    (hb : lookupTable EXCHANGE_RATES B = some rb) :
    get_exchange_rate A B = .rateOk A B (pyRound (rb / ra) 6) := by
  have ua := upper_of_supported A ra ha
  have ub := upper_of_supported B rb hb
  simp only [get_exchange_rate, ua, ub, ha, hb]

/-- Success-path form of `convert_currency` for table keys. -/
theorem convert_currency_ok (amount : ℚ) (A B : Str) (ra rb : ℚ)
    (ha : lookupTable EXCHANGE_RATES A = some ra)
    (hb : lookupTable EXCHANGE_RATES B = some rb) :
    convert_currency amount A B =
      .convertOk amount A B (pyRound (amount * (rb / ra)) 2) (pyRound (rb / ra) 6) := by
  have ua := upper_of_supported A ra ha
  have ub := upper_of_supported B rb hb
  simp only [convert_currency, ua, ub, ha, hb]

theorem run_agent_loop_no_calls (model : Model) (fuel : ℕ)
    (messages : List Message) (c : Option Str) :
    run_agent_loop model fuel messages ⟨c, []⟩ = .ok (c, 0) := by
  cases fuel <;> rfl

theorem run_agent_loop_raises (model : Model) (fuel : ℕ)
    (messages : List Message) (am : AssistantMessage) (e : Str)
    (h : handle_tool_calls am.tool_calls = .error e) (hne : am.tool_calls ≠ []) :
    run_agent_loop model (fuel + 1) messages am = .error e := by
  obtain ⟨c, tcs⟩ := am
  cases tcs with
  | nil => exact absurd rfl hne
  | cons tc rest =>
    show (do
      let tool_results ← handle_tool_calls (tc :: rest)
      let messages' := messages ++ [Message.assistant ⟨c, tc :: rest⟩] ++ tool_results
      let am' ← model messages'
      let (r, n) ← run_agent_loop model fuel messages' am'
      pure (r, n + 1) : Except Str (Option Str × ℕ)) = .error e
    rw [show handle_tool_calls (tc :: rest) = .error e from h]
    rfl

theorem run_agent_loop_one_round (model : Model) (fuel : ℕ)
    (messages : List Message) (c c' : Option Str) (tc : ToolCall) (m : Message)
    (h : handle_tool_calls [tc] = .ok [m])
    (hm : model (messages ++ [Message.assistant ⟨c, [tc]⟩] ++ [m]) = .ok ⟨c', []⟩) :
    run_agent_loop model (fuel + 1) messages ⟨c, [tc]⟩ = .ok (c', 1) := by
  show (do
    let tool_results ← handle_tool_calls [tc]
    let messages' := messages ++ [Message.assistant ⟨c, [tc]⟩] ++ tool_results
    let am' ← model messages'
    let (r, n) ← run_agent_loop model fuel messages' am'
    pure (r, n + 1) : Except Str (Option Str × ℕ)) = .ok (c', 1)
  rw [h]
  show (do
    let am' ← model (messages ++ [Message.assistant ⟨c, [tc]⟩] ++ [m])
    let (r, n) ← run_agent_loop model fuel (messages ++ [Message.assistant ⟨c, [tc]⟩] ++ [m]) am'
    pure (r, n + 1) : Except Str (Option Str × ℕ)) = .ok (c', 1)
  rw [hm]
  show (do
    let (r, n) ← run_agent_loop model fuel (messages ++ [Message.assistant ⟨c, [tc]⟩] ++ [m]) ⟨c', []⟩
    pure (r, n + 1) : Except Str (Option Str × ℕ)) = .ok (c', 1)
  rw [run_agent_loop_no_calls]
  rfl

/-!  ## Claim theorems  -/

/-- Claim C1: for every amount and every pair of supported codes `A`, `B`,
`convert_currency` succeeds with `converted_amount = round(amount * table[B]
/ table[A], 2)` and `exchange_rate = round(table[B] / table[A], 6)`; in
particular `convert_currency(100, "USD", "EUR")` gives converted amount 92.0
and exchange rate 0.92. -/
theorem convert_currency_formula :
    (∀ (amount : ℚ) (A B : Str) (ra rb : ℚ),
      lookupTable EXCHANGE_RATES A = some ra →
      lookupTable EXCHANGE_RATES B = some rb →
      convert_currency amount A B =
        .convertOk amount A B (pyRound (amount * (rb / ra)) 2) (pyRound (rb / ra) 6)) ∧
    convert_currency 100 (str "USD") (str "EUR") =
      .convertOk 100 (str "USD") (str "EUR") 92 0.92 := by
  constructor
  · intro amount A B ra rb ha hb
    exact convert_currency_ok amount A B ra rb ha hb
  · rw [convert_currency_ok 100 (str "USD") (str "EUR") 1.0 0.92 rfl rfl]
    have e1 : pyRound (100 * ((0.92 : ℚ) / 1.0)) 2 = 92 := by
      rw [pyRound_eq _ _ 9200 (halfEven_of_floor_of_lt _ _ (by norm_num) (by norm_num))]
      norm_num
    have e2 : pyRound ((0.92 : ℚ) / 1.0) 6 = 0.92 := by
      rw [pyRound_eq _ _ 920000 (halfEven_of_floor_of_lt _ _ (by norm_num) (by norm_num))]
      norm_num
    rw [e1, e2]

/-- Claim C1 witness: the general formula instantiated at
`convert_currency(250, "GBP", "JPY")`. -/
theorem convert_currency_formula_witness :
    lookupTable EXCHANGE_RATES (str "GBP") = some 0.79 ∧
    convert_currency 250 (str "GBP") (str "JPY") =
      .convertOk 250 (str "GBP") (str "JPY")
        (pyRound (250 * ((149.50 : ℚ) / 0.79)) 2) (pyRound ((149.50 : ℚ) / 0.79) 6) :=
  ⟨rfl, convert_currency_formula.1 250 (str "GBP") (str "JPY") 0.79 149.50 rfl rfl⟩

/-- Claim C2: for every pair of supported codes `A`, `B`,
`get_exchange_rate` succeeds with `exchange_rate = round(table[B] /
table[A], 6)` (all rates derived through the base currency); in particular
`get_exchange_rate("GBP", "JPY")` gives 189.240506. -/
theorem get_exchange_rate_formula :
    (∀ (A B : Str) (ra rb : ℚ),
      lookupTable EXCHANGE_RATES A = some ra →
      lookupTable EXCHANGE_RATES B = some rb →
      get_exchange_rate A B = .rateOk A B (pyRound (rb / ra) 6)) ∧
    get_exchange_rate (str "GBP") (str "JPY") =
      .rateOk (str "GBP") (str "JPY") 189.240506 := by
  constructor
  · intro A B ra rb ha hb
    exact get_exchange_rate_ok A B ra rb ha hb
  · rw [get_exchange_rate_ok (str "GBP") (str "JPY") 0.79 149.50 rfl rfl]
    have e : pyRound ((149.50 : ℚ) / 0.79) 6 = 189.240506 := by
      rw [pyRound_eq _ _ 189240506
        (halfEven_of_floor_of_lt _ _ (by norm_num) (by norm_num))]
      norm_num
    rw [e]

/-- Claim C2 witness: the general formula instantiated at
`get_exchange_rate("USD", "EUR")`. -/
theorem get_exchange_rate_formula_witness :
    lookupTable EXCHANGE_RATES (str "USD") = some 1.0 ∧
    get_exchange_rate (str "USD") (str "EUR") =
      .rateOk (str "USD") (str "EUR") (pyRound ((0.92 : ℚ) / 1.0) 6) :=
  ⟨rfl, get_exchange_rate_formula.1 (str "USD") (str "EUR") 1.0 0.92 rfl rfl⟩

/-- Claim C5: for every supported code `X`, `get_exchange_rate(X, X)`
returns exchange rate exactly 1.0. -/
theorem get_exchange_rate_self (X : Str) (r : ℚ)
    (h : lookupTable EXCHANGE_RATES X = some r) :
    get_exchange_rate X X = .rateOk X X 1 := by
  have hpos : (0 : ℚ) < r := rates_pos (X, r) (lookupTable_mem _ _ _ h)
  rw [get_exchange_rate_ok X X r r h h, div_self (ne_of_gt hpos), pyRound_one_six]

/-- Claim C5 witness: `get_exchange_rate("JPY", "JPY") = 1.0`. -/
theorem get_exchange_rate_self_witness :
    lookupTable EXCHANGE_RATES (str "JPY") = some 149.50 ∧
    get_exchange_rate (str "JPY") (str "JPY") = .rateOk (str "JPY") (str "JPY") 1 :=
  ⟨rfl, get_exchange_rate_self (str "JPY") 149.50 rfl⟩

/-- Claim C7: both functions are case-insensitive in their currency-code
arguments: the result equals the result on the uppercased codes, because
codes are normalized to uppercase before any table lookup. -/
theorem currency_code_case_insensitive (amount : ℚ) (a b : Str) :
    get_exchange_rate a b = get_exchange_rate (upper a) (upper b) ∧
    convert_currency amount a b = convert_currency amount (upper a) (upper b) := by
  constructor <;> simp only [get_exchange_rate, convert_currency, upper_idem]

/-- Claim C8: `list_supported_currencies` always succeeds and returns all
codes of the rate table, a count equal to the table's size, and base
currency "USD", whose table entry is 1.0. -/
theorem list_supported_currencies_spec :
    list_supported_currencies =
      .listOk (EXCHANGE_RATES.map Prod.fst) (str "USD") EXCHANGE_RATES.length ∧
    (EXCHANGE_RATES.map Prod.fst).length = EXCHANGE_RATES.length ∧
    str "USD" ∈ EXCHANGE_RATES.map Prod.fst ∧
    lookupTable EXCHANGE_RATES (str "USD") = some 1 := by
  refine ⟨rfl, by simp, by decide, ?_⟩
  have h : lookupTable EXCHANGE_RATES (str "USD") = some 1.0 := rfl
  rw [h]
  norm_num

/-- Claim C10: when both codes are absent from the table, the error is the
from-currency's: the message is `Currency '<FROM>' not supported` with the
uppercased from code, for both functions. -/
theorem both_unsupported_names_from (a b : Str) (amount : ℚ)
    (ha : lookupTable EXCHANGE_RATES (upper a) = none)
    (_hb : lookupTable EXCHANGE_RATES (upper b) = none) :
    get_exchange_rate a b =
      .error (str "Currency '" ++ upper a ++ str "' not supported") ∧
    convert_currency amount a b =
      .error (str "Currency '" ++ upper a ++ str "' not supported") := by
  constructor
  · simp only [get_exchange_rate, ha]
    rfl
  · simp only [convert_currency, ha]
    rfl

/-- Claim C10 witness: both `XYZ` and `ABC` unsupported; the error names
`XYZ`, the from code. -/
theorem both_unsupported_names_from_witness :
    get_exchange_rate (str "XYZ") (str "ABC") =
      .error (str "Currency '" ++ upper (str "XYZ") ++ str "' not supported") ∧
    convert_currency 7 (str "XYZ") (str "ABC") =
      .error (str "Currency '" ++ upper (str "XYZ") ++ str "' not supported") :=
  both_unsupported_names_from (str "XYZ") (str "ABC") 7 rfl rfl

/-- Claim C4 counterexample: `"ABC"` is not in the table, yet with the other
argument `"XYZ"` (also unsupported) both functions return the from-code's
error, whose message does not contain `"ABC"`; so the claim "the message
contains that code" fails with `c = "ABC"` in to-position. -/
theorem unsupported_code_message_counterexample :
    lookupTable EXCHANGE_RATES (upper (str "ABC")) = none ∧
    get_exchange_rate (str "XYZ") (str "ABC") =
      .error (str "Currency 'XYZ' not supported") ∧
    convert_currency 5 (str "XYZ") (str "ABC") =
      .error (str "Currency 'XYZ' not supported") ∧
    containsSub (str "Currency 'XYZ' not supported") (str "ABC") = false := by
  refine ⟨rfl, by decide, by decide, by decide⟩

/-- Claim C4 amended: for every code `c` not in the table (after
uppercasing) and every other argument, `get_exchange_rate` and
`convert_currency` return an Error Result and never raise; the message
contains the uppercased `c` whenever `c` is the from-currency, and whenever
`c` is the to-currency and the from-currency is supported; when both codes
are unsupported the message names the from-currency only. -/
theorem unsupported_code_error_result (c other : Str) (amount : ℚ)
    (hc : lookupTable EXCHANGE_RATES (upper c) = none) :
    (∃ m, get_exchange_rate c other = .error m ∧ containsSub m (upper c) = true) ∧
    (∃ m, convert_currency amount c other = .error m ∧ containsSub m (upper c) = true) ∧
    (∃ m, get_exchange_rate other c = .error m) ∧
    (∃ m, convert_currency amount other c = .error m) ∧
    (lookupTable EXCHANGE_RATES (upper other) ≠ none →
      (∃ m, get_exchange_rate other c = .error m ∧ containsSub m (upper c) = true) ∧
      (∃ m, convert_currency amount other c = .error m ∧ containsSub m (upper c) = true)) := by
  refine ⟨⟨currencyErrorMsg (upper c), ?_, containsSub_currencyErrorMsg _⟩,
    ⟨currencyErrorMsg (upper c), ?_, containsSub_currencyErrorMsg _⟩, ?_, ?_, ?_⟩
  · simp only [get_exchange_rate, hc]
  · simp only [convert_currency, hc]
  · cases hother : lookupTable EXCHANGE_RATES (upper other) with
    | none => exact ⟨currencyErrorMsg (upper other), by simp only [get_exchange_rate, hother]⟩
    | some r => exact ⟨currencyErrorMsg (upper c), by simp only [get_exchange_rate, hother, hc]⟩
  · cases hother : lookupTable EXCHANGE_RATES (upper other) with
    | none => exact ⟨currencyErrorMsg (upper other), by simp only [convert_currency, hother]⟩
    | some r => exact ⟨currencyErrorMsg (upper c), by simp only [convert_currency, hother, hc]⟩
  · intro hno
    obtain ⟨r, hr⟩ := Option.ne_none_iff_exists'.mp hno
    exact ⟨⟨currencyErrorMsg (upper c),
        by simp only [get_exchange_rate, hr, hc], containsSub_currencyErrorMsg _⟩,
      ⟨currencyErrorMsg (upper c),
        by simp only [convert_currency, hr, hc], containsSub_currencyErrorMsg _⟩⟩

/-- Claim C4 amended witness: instantiated at `c = "xyz"`, other argument
`"EUR"`, amount 3. -/
theorem unsupported_code_error_result_witness :
    lookupTable EXCHANGE_RATES (upper (str "xyz")) = none ∧
    (∃ m, get_exchange_rate (str "xyz") (str "EUR") = .error m ∧
      containsSub m (upper (str "xyz")) = true) := by
  have h := unsupported_code_error_result (str "xyz") (str "EUR") 3 rfl
  exact ⟨rfl, h.1⟩

/-- Claim C3 counterexample: a tool call whose JSON arguments fail to
deserialize makes `run_agent` raise (the `JSONDecodeError` propagates to the
caller) instead of converting the failure into an Error Result tool message
and continuing the loop. -/
theorem tool_exception_aborts_loop :
    run_agent badJSONModel 5 (str "Convert 100 USD to EUR") [] =
      .error (str "Expecting value: line 1 column 1 (char 0)") := by
  rfl

/-- Claim C3 amended: an exception raised while handling a tool call of the
first reply — a failure to deserialize the call's JSON arguments included —
is not caught: it propagates out of `run_agent` and aborts the loop (only an
unregistered function name is turned into an Error Result tool message;
model-call failures propagate as well). -/
theorem tool_exception_propagates (model : Model) (fuel : ℕ) (u : Str)
    (hist : List Message) (am : AssistantMessage) (e : Str)
    (hm : model (initial_messages u hist) = .ok am)
    (hne : am.tool_calls ≠ [])
    (hf : handle_tool_calls am.tool_calls = .error e) :
    run_agent model (fuel + 1) u hist = .error e := by
  show (do
    let am' ← model (initial_messages u hist)
    let (r, n) ← run_agent_loop model (fuel + 1) (initial_messages u hist) am'
    pure (r, n + 1) : Except Str (Option Str × ℕ)) = .error e
  rw [hm]
  show (do
    let (r, n) ← run_agent_loop model (fuel + 1) (initial_messages u hist) am
    pure (r, n + 1) : Except Str (Option Str × ℕ)) = .error e
  rw [run_agent_loop_raises model fuel _ am e hf hne]
  rfl

/-- Claim C3 amended witness: the propagation theorem applied to the
scripted model whose tool call carries undeserializable arguments. -/
theorem tool_exception_propagates_witness :
    run_agent badJSONModel (4 + 1) (str "hi") [] =
      .error (str "Expecting value: line 1 column 1 (char 0)") :=
  tool_exception_propagates badJSONModel 4 (str "hi") []
    ⟨none, [⟨str "call_1", str "convert_currency",
      .error (str "Expecting value: line 1 column 1 (char 0)")⟩]⟩
    (str "Expecting value: line 1 column 1 (char 0)")
    rfl (by simp) rfl

/-- One tool call whose handling succeeds gives one tool-result message. -/
theorem handle_tool_calls_singleton (tc : ToolCall) (m : Message)
    (h : handle_tool_call tc = .ok m) : handle_tool_calls [tc] = .ok [m] := by
  show (handle_tool_call tc >>= fun b =>
    List.mapM.loop handle_tool_call [] [b]) = .ok [m]
  rw [h]
  rfl

/-- Claim C6: a tool call naming a function outside `AVAILABLE_FUNCTIONS`
produces exactly the Error Result `Unknown function: <name>` as its tool
result, and the loop continues to the next model call instead of aborting. -/
theorem unknown_function_error_result (name : Str) (args : ArgDict)
    (id : Str) (c c' : Option Str)
    (hname : lookupTable AVAILABLE_FUNCTIONS name = none) :
    dispatch_tool_call name args = .ok (.error (str "Unknown function: " ++ name)) ∧
    ∀ (model : Model) (fuel : ℕ) (messages : List Message),
      model (messages ++ [Message.assistant ⟨c, [⟨id, name, .ok args⟩]⟩] ++
        [Message.tool id (.error (str "Unknown function: " ++ name))]) = .ok ⟨c', []⟩ →
      run_agent_loop model (fuel + 1) messages ⟨c, [⟨id, name, .ok args⟩]⟩ = .ok (c', 1) := by
  have hd : dispatch_tool_call name args =
      .ok (.error (str "Unknown function: " ++ name)) := by
    simp only [dispatch_tool_call, hname]
  refine ⟨hd, ?_⟩
  intro model fuel messages hm
  refine run_agent_loop_one_round model fuel messages c c' _ _ ?_ hm
  apply handle_tool_calls_singleton
  show (dispatch_tool_call name args >>= fun r =>
    pure (Message.tool id r) : Except Str Message) =
      .ok (Message.tool id (.error (str "Unknown function: " ++ name)))
  rw [hd]
  rfl

/-- Claim C6 witness: dispatching `delete_everything` yields the unknown
function Error Result and the loop goes on to return the next reply. -/
theorem unknown_function_error_result_witness :
    dispatch_tool_call (str "delete_everything") [] =
      .ok (.error (str "Unknown function: delete_everything")) ∧
    run_agent_loop textOnlyModel (0 + 1) []
      ⟨none, [⟨str "call_9", str "delete_everything", .ok []⟩]⟩ =
      .ok (some (str "All done."), 1) := by
  have h := unknown_function_error_result (str "delete_everything") []
    (str "call_9") none (some (str "All done.")) rfl
  exact ⟨h.1, h.2 textOnlyModel 0 [] rfl⟩

/-- Claim C9: when the model's first reply carries no tool calls,
`run_agent` terminates after exactly one model call and returns that
reply's content unmodified. -/
theorem no_tool_calls_one_model_call (model : Model) (fuel : ℕ) (u : Str)
    (hist : List Message) (c : Option Str)
    (hm : model (initial_messages u hist) = .ok ⟨c, []⟩) :
    run_agent model fuel u hist = .ok (c, 1) := by
  show (do
    let am ← model (initial_messages u hist)
    let (r, n) ← run_agent_loop model fuel (initial_messages u hist) am
    pure (r, n + 1) : Except Str (Option Str × ℕ)) = .ok (c, 1)
  rw [hm]
  show (do
    let (r, n) ← run_agent_loop model fuel (initial_messages u hist) ⟨c, []⟩
    pure (r, n + 1) : Except Str (Option Str × ℕ)) = .ok (c, 1)
  rw [run_agent_loop_no_calls]
  rfl

/-- Claim C9 witness: a text-only model reply ends the run in one round. -/
theorem no_tool_calls_one_model_call_witness :
    run_agent textOnlyModel 3 (str "What currencies do you support?") [] =
      .ok (some (str "All done."), 1) :=
  no_tool_calls_one_model_call textOnlyModel 3
    (str "What currencies do you support?") [] (some (str "All done.")) rfl
